import Mathlib

/-!
Verification development for the Arinova agent SDK client
(`arinova_agent/client.py` together with `arinova_agent/types.py`).

The embedding models the connection lifecycle (`connect` / `_connect_once`),
the inbound read loop, the task registry (`_active_tasks`, a dict from task
id to a `threading.Event`), and the task supervisor (`_handle_task`) with its
reporting closures (`send_chunk` / `send_complete` / `send_error`).

Modelling choices, all taken from the source:
* `threading.Event` objects are shared mutable cells; they are modelled by an
  indexed store `events : List Bool` (index = identity of the Event, value =
  `is_set`).  The registry is an association list from task id to event index
  with Python-dict update semantics (a present key is replaced in place).
* JSON decoding of an inbound text frame has three observable outcomes in the
  code: `json.loads` raises `JSONDecodeError` (modelled `Raw.bad`), it yields
  a non-object on which `.get` raises `AttributeError` (modelled
  `Raw.nonObj`), or it yields an object, modelled as `InObj` with the optional
  fields the code reads.  `msg["k"]` on a missing key raises `KeyError`.
* Outbound sends (`send_sync`, which schedules `ws.send` on the running loop
  in call order) are modelled by appending to `outbound`.
* Lifecycle callbacks are modelled by counters (`connectedCbs`,
  `disconnectedCbs`) and by the list of messages passed to the error
  callback (`errorCbs`).
* One `_connect_once` attempt is driven by a `Script`: whether the transport
  opens, the single awaited auth reply, the list of frames the read loop
  receives, and whether iteration over the socket ends by a clean close
  (`async for` terminates) or by a transport error (`async for` raises).
  The reconnect loop consumes a list of scripts, one per attempt, with fuel.
* `asyncio.create_task(self._handle_task(...))` defers handler execution;
  at read-loop level a dispatch is recorded in `spawned`, while
  `handleTask` models one execution of `_handle_task` against a handler
  behaviour given as a script of closure calls plus an optional raise.
-/

/-- An outbound frame, as serialized by the client (§6 of the design).
`agentAuth` carries the bot token and `ping` no fields; neither is
relevant to any claim, so their payloads are not modelled. -/
inductive OutFrame where
  | agentAuth : OutFrame
  | ping : OutFrame
  | agentChunk (taskId chunk : String) : OutFrame
  | agentComplete (taskId content : String) : OutFrame
  | agentError (taskId err : String) : OutFrame
deriving DecidableEq, Repr

/-- The fields of a decoded inbound JSON object that the client reads.
`none` models an absent key. -/
structure InObj where
  type? : Option String
  taskId? : Option String
  conversationId? : Option String
  content? : Option String
  err? : Option String
deriving DecidableEq, Repr

/-- One inbound text frame, by its decoding outcome: `bad` when `json.loads`
raises `JSONDecodeError`, `nonObj` when it yields a value with no `.get`
attribute (list, number, string, ...), `obj` when it yields an object. -/
inductive Raw where
  | bad : Raw
  | nonObj : Raw
  | obj (o : InObj) : Raw
deriving DecidableEq, Repr

/-- The exceptions that can escape `_connect_once` (or abort the read loop). -/
inductive ExnKind where
  | authFailed (msg : String) : ExnKind
  | decodeFailed : ExnKind
  | attrFailed : ExnKind
  | keyFailed : ExnKind
  | transportFailed : ExnKind
deriving DecidableEq, Repr

/-- The mutable state of an `ArinovaAgent` instance, plus the observable
effect trace (outbound frames, callback invocations, spawned task frames). -/
structure AgentState where
  stopped : Bool
  events : List Bool
  registry : List (String × Nat)
  connectedCbs : Nat
  disconnectedCbs : Nat
  errorCbs : List String
  outbound : List OutFrame
  spawned : List (String × String × String)
deriving DecidableEq, Repr

/-- A fresh agent: the state right after `__init__`. -/
def st0 : AgentState :=
  { stopped := false, events := [], registry := [], connectedCbs := 0,
    disconnectedCbs := 0, errorCbs := [], outbound := [], spawned := [] }

/-- Dict lookup: `self._active_tasks.get(task_id)`. -/
def lookupReg : List (String × Nat) → String → Option Nat
  | [], _ => none
  | (k', v) :: rest, k => if k' = k then some v else lookupReg rest k

/-- Dict update: `self._active_tasks[task_id] = cancelled` (a present key is
replaced in place, a new key is appended). -/
def updateReg : List (String × Nat) → String → Nat → List (String × Nat)
  | [], k, v => [(k, v)]
  | (k', v') :: rest, k, v =>
    if k' = k then (k, v) :: rest else (k', v') :: updateReg rest k v

/-- Dict removal: `self._active_tasks.pop(task_id, None)` (a no-op when the
key is absent). -/
def removeReg : List (String × Nat) → String → List (String × Nat)
  | [], _ => []
  | (k', v) :: rest, k =>
    if k' = k then removeReg rest k else (k', v) :: removeReg rest k

/-- The shape of the decoded `cancel_task` frame `{"type": "cancel_task",
"taskId": tid}`. -/
def cancelFrame (tid : String) : Raw :=
  .obj { type? := some "cancel_task", taskId? := some tid,
         conversationId? := none, content? := none, err? := none }

/-- The shape of the decoded `task` frame with its three required fields. -/
def taskFrame (tid cid content : String) : Raw :=
  .obj { type? := some "task", taskId? := some tid,
         conversationId? := some cid, content? := some content, err? := none }

/-- One iteration of the inbound read loop of `_connect_once`
(`client.py` lines 135-162) on one received frame:
* undecodable JSON (`json.JSONDecodeError`) is caught and skipped;
* a decoded non-object raises `AttributeError` at `msg.get("type")`;
* `pong` is discarded;
* `cancel_task` looks up `msg.get("taskId", "")` in `_active_tasks` and sets
  the found event, if any;
* `task` reads `msg["taskId"]`, `msg["conversationId"]`, `msg["content"]`
  (raising `KeyError` when one is missing) and spawns `_handle_task`;
* any other `type` value falls through and is ignored. -/
def readStep (st : AgentState) (m : Raw) : Except ExnKind AgentState :=
  match m with
  | .bad => .ok st
  | .nonObj => .error .attrFailed
  | .obj o =>
    if o.type? = some "pong" then .ok st
    else if o.type? = some "cancel_task" then
      match lookupReg st.registry (o.taskId?.getD "") with
      | some e => .ok { st with events := st.events.set e true }
      | none => .ok st
    else if o.type? = some "task" then
      match o.taskId?, o.conversationId?, o.content? with
      | some tid, some cid, some c =>
        .ok { st with spawned := st.spawned ++ [(tid, cid, c)] }
      | _, _, _ => .error .keyFailed
    else .ok st

/-- The read loop: frames are processed in receive order; an uncaught
exception aborts the loop (state changes made by earlier frames persist;
the raising frame itself changed nothing, as in `readStep`). -/
def readLoop : AgentState → List Raw → AgentState × Option ExnKind
  | st, [] => (st, none)
  | st, m :: rest =>
    match readStep st m with
    | .ok st' => readLoop st' rest
    | .error e => (st, some e)

/-- One call the external handler makes to the task context's reporting
closures. -/
inductive HAction where
  | chunk (s : String) : HAction
  | complete (s : String) : HAction
  | fail (s : String) : HAction
deriving DecidableEq, Repr

/-- The behaviour of one handler invocation: the sequence of reporting-closure
calls it performs, then optionally a raised exception (with its `str`). -/
structure Handler where
  actions : List HAction
  raises : Option String
deriving DecidableEq, Repr

/-- The `send_chunk` closure of `_handle_task`: emit an `agent_chunk` frame. -/
def sendChunkCl (tid s : String) (st : AgentState) : AgentState :=
  { st with outbound := st.outbound ++ [.agentChunk tid s] }

/-- The `on_complete` closure of `_handle_task`: pop the registry entry, then
emit an `agent_complete` frame.  There is no already-terminated guard. -/
def sendCompleteCl (tid s : String) (st : AgentState) : AgentState :=
  { st with registry := removeReg st.registry tid,
            outbound := st.outbound ++ [.agentComplete tid s] }

/-- The `on_error` closure of `_handle_task`: pop the registry entry, then
emit an `agent_error` frame.  There is no already-terminated guard. -/
def sendErrorCl (tid s : String) (st : AgentState) : AgentState :=
  { st with registry := removeReg st.registry tid,
            outbound := st.outbound ++ [.agentError tid s] }

/-- Run the handler's sequence of reporting-closure calls. -/
def runActions (tid : String) : List HAction → AgentState → AgentState
  | [], st => st
  | .chunk s :: rest, st => runActions tid rest (sendChunkCl tid s st)
  | .complete s :: rest, st => runActions tid rest (sendCompleteCl tid s st)
  | .fail s :: rest, st => runActions tid rest (sendErrorCl tid s st)

/-- Lines 189-190 of `_handle_task`: allocate a fresh `Event` (index
`st.events.length`, initially clear) and insert it into `_active_tasks`
under the task id, replacing any existing binding. -/
def registerTask (tid : String) (st : AgentState) : AgentState :=
  { st with registry := updateReg st.registry tid st.events.length,
            events := st.events ++ [false] }

/-- `_handle_task` (`client.py` lines 178-233) for one dispatched task id,
against a handler behaviour (`none` when no handler is registered):
1. register a fresh cancellation event (this happens before the
   no-handler check);
2. with no handler: `task.send_error("No task handler registered")`, then
   return (the early return skips the `finally` block);
3. otherwise run the handler; if it raises, the `except` arm calls
   `task.send_error(str(exc))` and then the process-level error callback;
   the `finally` arm pops the registry entry (a no-op when a terminal
   closure already popped it). -/
def handleTask (h? : Option Handler) (tid : String) (st : AgentState) :
    AgentState :=
  let st1 := registerTask tid st
  match h? with
  | none => sendErrorCl tid "No task handler registered" st1
  | some h =>
    let st2 := runActions tid h.actions st1
    let st3 :=
      match h.raises with
      | some m =>
        let stE := sendErrorCl tid m st2
        { stE with errorCbs := stE.errorCbs ++ [m] }
      | none => st2
    { st3 with registry := removeReg st3.registry tid }

/-- Whether an outbound frame is a terminal reporting frame
(`agent_complete` or `agent_error`) for the given task id. -/
def isTerminalFor (tid : String) : OutFrame → Bool
  | .agentComplete t _ => t == tid
  | .agentError t _ => t == tid
  | _ => false

/-- The number of terminal frames for a task id in an outbound trace. -/
def countTerminal (fs : List OutFrame) (tid : String) : Nat :=
  (fs.filter (isTerminalFor tid)).length

/-- The number of terminal reporting-closure calls in a handler script. -/
def terminalActs : List HAction → Nat
  | [] => 0
  | .chunk _ :: rest => terminalActs rest
  | .complete _ :: rest => 1 + terminalActs rest
  | .fail _ :: rest => 1 + terminalActs rest

/-- The outbound frames produced by a sequence of reporting-closure calls. -/
def actsFrames (tid : String) : List HAction → List OutFrame
  | [] => []
  | .chunk s :: rest => .agentChunk tid s :: actsFrames tid rest
  | .complete s :: rest => .agentComplete tid s :: actsFrames tid rest
  | .fail s :: rest => .agentError tid s :: actsFrames tid rest

/-- The environment of one `_connect_once` attempt: whether the transport
opens, the single awaited auth reply, the frames the read loop then
receives, and whether iteration over the socket ends by a clean close
(`cleanClose = true`, the `async for` terminates) or by a transport error
(`cleanClose = false`, the `async for` raises after the last frame). -/
structure Script where
  connectOk : Bool
  authReply : Raw
  msgs : List Raw
  cleanClose : Bool
deriving DecidableEq, Repr

/-- Line 113 of `_connect_once`: send the `agent_auth` frame. -/
def sendAuth (st : AgentState) : AgentState :=
  { st with outbound := st.outbound ++ [.agentAuth] }

/-- The message of the exception built on an `auth_error` reply
(line 120): `f"Agent auth failed: {data.get('error', 'unknown')}"`. -/
def authFailMsg (o : InObj) : String :=
  "Agent auth failed: " ++ o.err?.getD "unknown"

/-- Lines 134-168 of `_connect_once`: run the read loop over the received
frames, then leave the `Connected` phase.  The disconnected callback sits
AFTER the `try`/`finally` block, so it runs only when the `async for`
terminated without an exception (clean close); a read-loop exception or a
transport error propagates past it. -/
def runSession (st : AgentState) (ms : List Raw) (cleanClose : Bool) :
    AgentState × Option ExnKind :=
  match readLoop st ms with
  | (st', none) =>
    if cleanClose then
      ({ st' with disconnectedCbs := st'.disconnectedCbs + 1 }, none)
    else (st', some .transportFailed)
  | (st', some e) => (st', some e)

/-- `_connect_once` (`client.py` lines 107-168) driven by one script.
Returns the state and the exception that escaped, if any:
* the transport fails to open: raise (a transient connection error);
* send `agent_auth`, await one reply; undecodable JSON raises
  `JSONDecodeError`, a non-object raises `AttributeError` at `data.get`;
* an `auth_error` reply sets `self._stopped = True`, invokes the error
  callback with `Agent auth failed: ...`, and raises that same exception;
* an `auth_ok` reply invokes the connected callback;
* any other object reply falls through silently — there is no abort branch,
  so the session proceeds into the read phase without the connected
  callback having been invoked. -/
def connectOnce (sc : Script) (st : AgentState) :
    AgentState × Option ExnKind :=
  if sc.connectOk = false then (st, some .transportFailed)
  else
    let st1 := sendAuth st
    match sc.authReply with
    | .bad => (st1, some .decodeFailed)
    | .nonObj => (st1, some .attrFailed)
    | .obj o =>
      if o.type? = some "auth_error" then
        ({ st1 with stopped := true,
                    errorCbs := st1.errorCbs ++ [authFailMsg o] },
         some (.authFailed (authFailMsg o)))
      else if o.type? = some "auth_ok" then
        runSession { st1 with connectedCbs := st1.connectedCbs + 1 }
          sc.msgs sc.cleanClose
      else
        runSession st1 sc.msgs sc.cleanClose

/-- The `str` of an exception escaping `_connect_once`, as received by the
error callback in `connect`'s `except` arm. -/
def describeExn : ExnKind → String
  | .authFailed m => m
  | .decodeFailed => "JSONDecodeError"
  | .attrFailed => "AttributeError"
  | .keyFailed => "KeyError"
  | .transportFailed => "ConnectionError"

/-- The `while not self._stopped` loop of `connect` (lines 89-99), with fuel
bounding the number of iterations and one script per attempt (an empty
script list ends the run).  Returns the final state and the number of
`_connect_once` attempts made.  On an exception the error callback is
invoked with its description; if `self._stopped` is then set the loop
breaks, otherwise it sleeps the reconnect interval and retries. -/
def connectLoop : Nat → List Script → AgentState → AgentState × Nat
  | 0, _, st => (st, 0)
  | _ + 1, [], st => (st, 0)
  | fuel + 1, sc :: rest, st =>
    if st.stopped then (st, 0)
    else
      match connectOnce sc st with
      | (st', none) =>
        let r := connectLoop fuel rest st'
        (r.1, r.2 + 1)
      | (st', some e) =>
        let st2 := { st' with errorCbs := st'.errorCbs ++ [describeExn e] }
        if st2.stopped then (st2, 1)
        else
          let r := connectLoop fuel rest st2
          (r.1, r.2 + 1)

/-- `connect` (lines 84-99): reset `self._stopped` to `False`, then run the
reconnect loop. -/
def connect (fuel : Nat) (scripts : List Script) (st : AgentState) :
    AgentState × Nat :=
  connectLoop fuel scripts { st with stopped := false }

/-- Well-formedness of the registry/event-store pair: the dict has at most
one binding per task id (as a Python dict does by construction), and every
bound event index points into the event store. -/
def regWF (st : AgentState) : Prop :=
  (st.registry.map Prod.fst).Nodup ∧ ∀ p ∈ st.registry, p.2 < st.events.length

instance (st : AgentState) : Decidable (regWF st) := by
  unfold regWF; infer_instance

theorem lookupReg_updateReg_self (r : List (String × Nat)) (k : String) (v : Nat) :
    lookupReg (updateReg r k v) k = some v := by
  induction r with
  | nil => simp [updateReg, lookupReg]
  | cons p rest ih =>
    obtain ⟨k', v'⟩ := p
    by_cases h : k' = k
    · simp [updateReg, lookupReg, h]
    · simp [updateReg, lookupReg, h, ih]

theorem removeReg_updateReg (r : List (String × Nat)) (k : String) (v : Nat) :
    removeReg (updateReg r k v) k = removeReg r k := by
  induction r with
  | nil => simp [updateReg, removeReg]
  | cons p rest ih =>
    obtain ⟨k', v'⟩ := p
    by_cases h : k' = k
    · simp [updateReg, removeReg, h]
    · simp [updateReg, removeReg, h, ih]

theorem lookupReg_removeReg_self (r : List (String × Nat)) (k : String) :
    lookupReg (removeReg r k) k = none := by
  induction r with
  | nil => simp [removeReg, lookupReg]
  | cons p rest ih =>
    obtain ⟨k', v'⟩ := p
    by_cases h : k' = k
    · simp [removeReg, h, ih]
    · simp [removeReg, lookupReg, h, ih]

theorem removeReg_of_lookup_none (r : List (String × Nat)) (k : String)
    (h : lookupReg r k = none) : removeReg r k = r := by
  induction r with
  | nil => simp [removeReg]
  | cons p rest ih =>
    obtain ⟨k', v'⟩ := p
    by_cases hk : k' = k
    · simp [lookupReg, hk] at h
    · simp [lookupReg, hk] at h
      simp [removeReg, hk, ih h]

theorem lookupReg_mem (r : List (String × Nat)) (k : String) (v : Nat)
    (h : lookupReg r k = some v) : (k, v) ∈ r := by
  induction r with
  | nil => simp [lookupReg] at h
  | cons p rest ih =>
    obtain ⟨k', v'⟩ := p
    by_cases hk : k' = k
    · subst hk
      simp [lookupReg] at h
      simp [h]
    · simp [lookupReg, hk] at h
      simp [ih h]

theorem mem_keys_of_lookup (r : List (String × Nat)) (k : String) (v : Nat)
    (h : lookupReg r k = some v) : k ∈ r.map Prod.fst :=
  List.mem_map.mpr ⟨(k, v), lookupReg_mem r k v h, rfl⟩

theorem keys_updateReg_mem (r : List (String × Nat)) (k : String) (v : Nat)
    (h : k ∈ r.map Prod.fst) :
    (updateReg r k v).map Prod.fst = r.map Prod.fst := by
  induction r with
  | nil => simp at h
  | cons p rest ih =>
    obtain ⟨k', v'⟩ := p
    by_cases hk : k' = k
    · subst hk
      simp [updateReg]
    · rw [List.map_cons] at h
      rcases List.mem_cons.mp h with h | h
      · exact absurd h.symm hk
      · simp [updateReg, hk, ih h]

theorem keys_updateReg_not_mem (r : List (String × Nat)) (k : String) (v : Nat)
    (h : k ∉ r.map Prod.fst) :
    (updateReg r k v).map Prod.fst = r.map Prod.fst ++ [k] := by
  induction r with
  | nil => simp [updateReg]
  | cons p rest ih =>
    obtain ⟨k', v'⟩ := p
    rw [List.map_cons] at h
    have hk : k' ≠ k := fun he => h (he ▸ List.mem_cons_self k' _)
    have hrest : k ∉ rest.map Prod.fst := fun hm => h (List.mem_cons_of_mem _ hm)
    simp [updateReg, hk, ih hrest]

theorem nodup_keys_updateReg (r : List (String × Nat)) (k : String) (v : Nat)
    (h : (r.map Prod.fst).Nodup) :
    ((updateReg r k v).map Prod.fst).Nodup := by
  by_cases hk : k ∈ r.map Prod.fst
  · rw [keys_updateReg_mem r k v hk]; exact h
  · rw [keys_updateReg_not_mem r k v hk]
    simp [List.nodup_append, h, hk]

theorem mem_updateReg (r : List (String × Nat)) (k : String) (v : Nat)
    (p : String × Nat) (h : p ∈ updateReg r k v) : p = (k, v) ∨ p ∈ r := by
  induction r with
  | nil =>
    simp [updateReg] at h
    simp [h]
  | cons q rest ih =>
    obtain ⟨k', v'⟩ := q
    by_cases hk : k' = k
    · subst hk
      simp only [updateReg, if_pos rfl] at h
      rcases List.mem_cons.mp h with h | h
      · exact Or.inl h
      · exact Or.inr (List.mem_cons_of_mem _ h)
    · simp only [updateReg, if_neg hk] at h
      rcases List.mem_cons.mp h with h | h
      · exact Or.inr (h ▸ List.mem_cons_self _ _)
      · rcases ih h with h' | h'
        · exact Or.inl h'
        · exact Or.inr (List.mem_cons_of_mem _ h')

theorem set_get_self_bool (l : List Bool) (i : Nat) (h : l[i]? = some true) :
    l.set i true = l := by
  induction l generalizing i with
  | nil => simp
  | cons x rest ih =>
    cases i with
    | zero =>
      simp at h
      simp [List.set, h]
    | succ n =>
      simp at h
      simp [List.set, ih n h]

theorem readStep_ok_fields (st st' : AgentState) (m : Raw)
    (h : readStep st m = Except.ok st') :
    st'.stopped = st.stopped ∧ st'.registry = st.registry ∧
    st'.connectedCbs = st.connectedCbs ∧
    st'.disconnectedCbs = st.disconnectedCbs ∧
    st'.errorCbs = st.errorCbs ∧ st'.outbound = st.outbound := by
  rcases m with _ | _ | o
  · simp [readStep] at h
    subst h
    exact ⟨rfl, rfl, rfl, rfl, rfl, rfl⟩
  · simp [readStep] at h
  · simp only [readStep] at h
    split at h
    · simp at h; subst h; exact ⟨rfl, rfl, rfl, rfl, rfl, rfl⟩
    · split at h
      · split at h
        · simp at h; subst h; exact ⟨rfl, rfl, rfl, rfl, rfl, rfl⟩
        · simp at h; subst h; exact ⟨rfl, rfl, rfl, rfl, rfl, rfl⟩
      · split at h
        · split at h
          · simp at h; subst h; exact ⟨rfl, rfl, rfl, rfl, rfl, rfl⟩
          · simp at h
        · simp at h; subst h; exact ⟨rfl, rfl, rfl, rfl, rfl, rfl⟩

theorem readLoop_fst_fields (st : AgentState) (ms : List Raw) :
    (readLoop st ms).1.stopped = st.stopped ∧
    (readLoop st ms).1.registry = st.registry ∧
    (readLoop st ms).1.connectedCbs = st.connectedCbs ∧
    (readLoop st ms).1.disconnectedCbs = st.disconnectedCbs ∧
    (readLoop st ms).1.errorCbs = st.errorCbs ∧
    (readLoop st ms).1.outbound = st.outbound := by
  induction ms generalizing st with
  | nil => simp [readLoop]
  | cons m rest ih =>
    unfold readLoop
    cases hr : readStep st m with
    | ok st' =>
      obtain ⟨h1, h2, h3, h4, h5, h6⟩ := readStep_ok_fields st st' m hr
      obtain ⟨g1, g2, g3, g4, g5, g6⟩ := ih st'
      exact ⟨g1.trans h1, g2.trans h2, g3.trans h3, g4.trans h4,
             g5.trans h5, g6.trans h6⟩
    | error e => exact ⟨rfl, rfl, rfl, rfl, rfl, rfl⟩

theorem runActions_outbound (tid : String) (acts : List HAction)
    (st : AgentState) :
    (runActions tid acts st).outbound = st.outbound ++ actsFrames tid acts := by
  induction acts generalizing st with
  | nil => simp [runActions, actsFrames]
  | cons a rest ih =>
    cases a <;>
      simp [runActions, actsFrames, sendChunkCl, sendCompleteCl, sendErrorCl, ih]

theorem countTerminal_append (a b : List OutFrame) (tid : String) :
    countTerminal (a ++ b) tid = countTerminal a tid + countTerminal b tid := by
  simp [countTerminal, List.filter_append]

theorem countTerminal_actsFrames (tid : String) (acts : List HAction) :
    countTerminal (actsFrames tid acts) tid = terminalActs acts := by
  induction acts with
  | nil => simp [actsFrames, countTerminal, terminalActs]
  | cons a rest ih =>
    cases a <;>
      simp [actsFrames, countTerminal, terminalActs, isTerminalFor,
            List.filter_cons] at * <;>
      omega

/-- Claim C1, counterexample: the reporting closures carry no
"already terminated" guard, so a handler that calls `send_complete` twice
produces two `agent_complete` frames for the same task id — the second
call is not a no-op, contradicting the at-most-one-terminal-frame claim. -/
theorem handleTask_double_complete_counterexample :
    countTerminal (handleTask
        (some { actions := [.complete "a", .complete "b"], raises := none })
        "t1" st0).outbound "t1" = 2 ∧
    ¬ countTerminal (handleTask
        (some { actions := [.complete "a", .complete "b"], raises := none })
        "t1" st0).outbound "t1" ≤ 1 := by
  decide

/-- Claim C1, amended: terminal reporting is not deduplicated — every call
the handler makes to `send_complete` or `send_error` emits its terminal
frame, and a raise after the handler's calls adds one more `agent_error`
frame; the registry entry is removed by the first terminal call and removal
is idempotent, so after `_handle_task` finishes the registry never contains
the task id. -/
theorem handleTask_terminal_frames (h : Handler) (tid : String)
    (st : AgentState) :
    countTerminal (handleTask (some h) tid st).outbound tid =
      countTerminal st.outbound tid + terminalActs h.actions +
        (if h.raises.isSome then 1 else 0) ∧
    lookupReg (handleTask (some h) tid st).registry tid = none := by
  constructor
  · unfold handleTask
    cases hr : h.raises with
    | none =>
      simp [hr, runActions_outbound, registerTask, countTerminal_append,
            countTerminal_actsFrames]
    | some m =>
      have hone : countTerminal [OutFrame.agentError tid m] tid = 1 := by
        simp [countTerminal, List.filter_cons, isTerminalFor]
      simp [hr, runActions_outbound, registerTask, sendErrorCl,
            countTerminal_append, countTerminal_actsFrames, hone]
      omega
  · unfold handleTask
    cases hr : h.raises <;>
      simp [hr, sendErrorCl, lookupReg_removeReg_self]

/-- Claim C2, counterexample: with no handler registered, `_handle_task`
does not skip registry insertion — its first statements register a fresh
cancellation event under the task id (the execution factors through
`registerTask`, whose result maps `t3` to event 0), and only the subsequent
`send_error` call removes the entry again. -/
theorem noHandler_registers_then_removes_counterexample :
    handleTask none "t3" st0 =
      sendErrorCl "t3" "No task handler registered" (registerTask "t3" st0) ∧
    lookupReg (registerTask "t3" st0).registry "t3" = some 0 := by
  exact ⟨rfl, rfl⟩

/-- Claim C2, amended: when no task handler is registered, the dispatch
sends exactly one `agent_error` frame with the fixed message
`No task handler registered`; the registry entry is created first and then
removed by that error report, so no entry remains afterwards (and when the
id was not previously registered the registry ends unchanged). -/
theorem noHandler_single_error_frame (tid : String) (st : AgentState) :
    (handleTask none tid st).outbound =
      st.outbound ++ [.agentError tid "No task handler registered"] ∧
    lookupReg (handleTask none tid st).registry tid = none ∧
    (lookupReg st.registry tid = none →
      (handleTask none tid st).registry = st.registry) := by
  refine ⟨rfl, ?_, ?_⟩
  · unfold handleTask registerTask sendErrorCl
    simp [removeReg_updateReg, lookupReg_removeReg_self]
  · intro hnone
    unfold handleTask registerTask sendErrorCl
    simp [removeReg_updateReg, removeReg_of_lookup_none _ _ hnone]

/-- Claim C2 witness: the amended statement evaluated at task id `t3` on a
fresh agent. -/
theorem noHandler_single_error_frame_witness :
    (handleTask none "t3" st0).outbound =
      st0.outbound ++ [.agentError "t3" "No task handler registered"] ∧
    lookupReg (handleTask none "t3" st0).registry "t3" = none ∧
    (handleTask none "t3" st0).registry = st0.registry := by
  obtain ⟨h1, h2, h3⟩ := noHandler_single_error_frame "t3" st0
  exact ⟨h1, h2, h3 rfl⟩

/-- Claim C8: dispatching `{type: "task", taskId: "t1", conversationId:
"c1", content: "hello"}` spawns the handler with those fields, and a
handler that calls `send_chunk("He")`, `send_chunk("llo")`,
`send_complete("Hello")` produces exactly the outbound frames
`agent_chunk(t1,"He")`, `agent_chunk(t1,"llo")`, `agent_complete(t1,"Hello")`
in that order, after which the registry no longer contains `t1`. -/
theorem scenario_chunk_chunk_complete :
    readStep st0 (taskFrame "t1" "c1" "hello") =
      .ok { st0 with spawned := [("t1", "c1", "hello")] } ∧
    (handleTask
        (some { actions := [.chunk "He", .chunk "llo", .complete "Hello"],
                raises := none }) "t1" st0).outbound =
      [.agentChunk "t1" "He", .agentChunk "t1" "llo",
       .agentComplete "t1" "Hello"] ∧
    lookupReg (handleTask
        (some { actions := [.chunk "He", .chunk "llo", .complete "Hello"],
                raises := none }) "t1" st0).registry "t1" = none := by
  refine ⟨rfl, by decide, by decide⟩

/-- Claim C6: routing of an inbound `cancel_task` frame — when the task id
is bound in the registry its cancellation event is set (and nothing else
changes: no outbound frame, no error, registry untouched); when the id is
unknown (including an already-terminated task, whose entry was removed) the
frame is a complete no-op; and signaling an already-set event leaves the
state exactly as it was. -/
theorem cancelFrame_routing (st : AgentState) (tid : String) (e : Nat) :
    (lookupReg st.registry tid = some e →
      readStep st (cancelFrame tid) =
        .ok { st with events := st.events.set e true }) ∧
    (lookupReg st.registry tid = none →
      readStep st (cancelFrame tid) = .ok st) ∧
    (lookupReg st.registry tid = some e → st.events[e]? = some true →
      readStep st (cancelFrame tid) = .ok st) := by
  refine ⟨?_, ?_, ?_⟩
  · intro h
    simp [readStep, cancelFrame, h]
  · intro h
    simp [readStep, cancelFrame, h]
  · intro h hset
    simp [readStep, cancelFrame, h, set_get_self_bool _ _ hset]

/-- Claim C6 witness: on a registry binding `t2` to a clear event, a cancel
for `t2` sets it; a cancel for the unknown id `zz` changes nothing; a second
cancel for `t2` (event already set) changes nothing. -/
theorem cancelFrame_routing_witness :
    readStep { st0 with registry := [("t2", 0)], events := [false] }
        (cancelFrame "t2") =
      .ok { st0 with registry := [("t2", 0)], events := [true] } ∧
    readStep { st0 with registry := [("t2", 0)], events := [false] }
        (cancelFrame "zz") =
      .ok { st0 with registry := [("t2", 0)], events := [false] } ∧
    readStep { st0 with registry := [("t2", 0)], events := [true] }
        (cancelFrame "t2") =
      .ok { st0 with registry := [("t2", 0)], events := [true] } := by
  refine ⟨(cancelFrame_routing _ "t2" 0).1 (by decide),
          (cancelFrame_routing _ "zz" 0).2.1 (by decide),
          (cancelFrame_routing _ "t2" 0).2.2 (by decide) (by decide)⟩

/-- Claim C10: dispatching a task id that already has a live registry entry
overwrites the entry with the newly allocated cancellation event (the dict
assignment at line 190 replaces the binding), the registry still maps each
id to at most one event, a subsequent `cancel_task` for the id sets only
the new event, and the old event — a distinct cell — keeps its value. -/
theorem redispatch_overwrites_signal (st : AgentState) (tid : String)
    (eOld : Nat) (hwf : regWF st)
    (hold : lookupReg st.registry tid = some eOld) :
    lookupReg (registerTask tid st).registry tid = some st.events.length ∧
    regWF (registerTask tid st) ∧
    readStep (registerTask tid st) (cancelFrame tid) =
      .ok { registerTask tid st with
            events :=
              (registerTask tid st).events.set st.events.length true } ∧
    ((registerTask tid st).events.set st.events.length true)[eOld]? =
      st.events[eOld]? ∧
    eOld ≠ st.events.length := by
  have hlt : eOld < st.events.length :=
    hwf.2 (tid, eOld) (lookupReg_mem _ _ _ hold)
  have hl : lookupReg (registerTask tid st).registry tid =
      some st.events.length := by
    simp [registerTask, lookupReg_updateReg_self]
  have hwf2 : regWF (registerTask tid st) := by
    unfold regWF
    constructor
    · simpa [registerTask] using
        nodup_keys_updateReg st.registry tid st.events.length hwf.1
    · intro p hp
      simp only [registerTask] at hp
      rcases mem_updateReg _ _ _ _ hp with h | h
      · subst h
        simp [registerTask]
      · have hb := hwf.2 p h
        simp only [registerTask, List.length_append, List.length_cons,
                   List.length_nil]
        omega
  refine ⟨hl, hwf2, ?_, ?_, by omega⟩
  · simp [readStep, cancelFrame, hl]
  · rw [List.getElem?_set_ne (by omega : st.events.length ≠ eOld)]
    simp only [registerTask]
    exact List.getElem?_append_left hlt

/-- Claim C10 witness: a registry binding `t1` to event 0; re-registration
binds `t1` to the fresh event 1, a cancel sets event 1, and event 0 is
untouched. -/
theorem redispatch_overwrites_signal_witness :
    lookupReg (registerTask "t1"
        { st0 with registry := [("t1", 0)], events := [false] }).registry
        "t1" = some 1 ∧
    regWF (registerTask "t1"
        { st0 with registry := [("t1", 0)], events := [false] }) ∧
    readStep (registerTask "t1"
          { st0 with registry := [("t1", 0)], events := [false] })
        (cancelFrame "t1") =
      .ok { registerTask "t1"
              { st0 with registry := [("t1", 0)], events := [false] } with
            events :=
              (registerTask "t1"
                { st0 with registry := [("t1", 0)],
                           events := [false] }).events.set 1 true } ∧
    ((registerTask "t1"
        { st0 with registry := [("t1", 0)],
                   events := [false] }).events.set 1 true)[0]? =
      ({ st0 with registry := [("t1", 0)],
                  events := [false] } : AgentState).events[0]? ∧
    (0 : Nat) ≠ 1 :=
  redispatch_overwrites_signal
    { st0 with registry := [("t1", 0)], events := [false] } "t1" 0
    (by decide) (by decide)

theorem runSession_connectedCbs (st : AgentState) (ms : List Raw) (cc : Bool) :
    (runSession st ms cc).1.connectedCbs = st.connectedCbs := by
  unfold runSession
  rcases hr : readLoop st ms with ⟨st', e⟩
  have hfields := readLoop_fst_fields st ms
  rw [hr] at hfields
  have h3 : st'.connectedCbs = st.connectedCbs := hfields.2.2.1
  rcases e with _ | e
  · by_cases hc : cc <;> simp [hc, h3]
  · simp [h3]

/-- Claim C7, counterexample: a well-formed JSON object frame of the
recognized type `task` that is missing its required `taskId` field is not
silently dropped — evaluating `msg["taskId"]` raises `KeyError`, which
escapes the read loop and terminates the connection session; the reconnect
loop then reports it through the error callback. -/
theorem task_frame_missing_field_counterexample :
    (connectOnce
      { connectOk := true,
        authReply := .obj ⟨some "auth_ok", none, none, none, none⟩,
        msgs := [.obj ⟨some "task", none, none, none, none⟩],
        cleanClose := true } st0).2 = some .keyFailed ∧
    (connectOnce
      { connectOk := true,
        authReply := .obj ⟨some "auth_ok", none, none, none, none⟩,
        msgs := [.obj ⟨some "task", none, none, none, none⟩],
        cleanClose := true } st0).1.disconnectedCbs = 0 ∧
    (connect 3
      [{ connectOk := true,
         authReply := .obj ⟨some "auth_ok", none, none, none, none⟩,
         msgs := [.obj ⟨some "task", none, none, none, none⟩],
         cleanClose := true }] st0).1.errorCbs = ["KeyError"] := by
  exact ⟨rfl, rfl, rfl⟩

/-- Claim C7, amended: during the `Connected` phase the read loop silently
drops undecodable JSON and any object frame whose `type` is missing or
unrecognized, and it continues reading; but a frame that is valid JSON yet
not an object aborts the session (`AttributeError` at `msg.get`), and a
`task` frame missing a required field aborts it too (`KeyError` at
`msg["taskId"]`) — both are then handled as transient session failures by
the reconnect loop rather than being dropped. -/
theorem malformed_frame_handling (st : AgentState) (o : InObj) (t : String) :
    readStep st .bad = .ok st ∧
    readStep st .nonObj = .error .attrFailed ∧
    (o.type? = none → readStep st (.obj o) = .ok st) ∧
    (o.type? = some t → t ≠ "pong" → t ≠ "cancel_task" → t ≠ "task" →
      readStep st (.obj o) = .ok st) ∧
    (o.type? = some "task" → o.taskId? = none →
      readStep st (.obj o) = .error .keyFailed) := by
  refine ⟨rfl, rfl, ?_, ?_, ?_⟩
  · intro h
    simp [readStep, h]
  · intro h h1 h2 h3
    simp [readStep, h, h1, h2, h3]
  · intro h h1
    simp [readStep, h, h1]

/-- Claim C7 witness: the amended statement evaluated on a fresh agent for a
frame with no `type`, a frame with the unrecognized type `mystery`, and a
`task` frame missing `taskId`. -/
theorem malformed_frame_handling_witness :
    readStep st0 (.obj ⟨none, none, none, none, none⟩) = .ok st0 ∧
    readStep st0 (.obj ⟨some "mystery", none, none, none, none⟩) = .ok st0 ∧
    readStep st0 (.obj ⟨some "task", none, none, none, none⟩) =
      .error .keyFailed := by
  refine ⟨(malformed_frame_handling st0 ⟨none, none, none, none, none⟩
            "x").2.2.1 rfl,
          (malformed_frame_handling st0 ⟨some "mystery", none, none, none,
            none⟩ "mystery").2.2.2.1 rfl (by decide) (by decide) (by decide),
          (malformed_frame_handling st0 ⟨some "task", none, none, none,
            none⟩ "x").2.2.2.2 rfl rfl⟩

/-- Claim C4, counterexample: a well-formed auth reply that is neither
`auth_ok` nor `auth_error` (here a `pong` object) does not abort the
attempt: the session falls through into the read phase (it processes a
subsequent `task` frame and spawns the handler), finishes without any
exception, and the error callback is never invoked — while the connected
callback is also never invoked. -/
theorem nonauth_reply_not_aborted_counterexample :
    (connectOnce
      { connectOk := true,
        authReply := .obj ⟨some "pong", none, none, none, none⟩,
        msgs := [taskFrame "t1" "c1" "hello"],
        cleanClose := true } st0).2 = none ∧
    (connectOnce
      { connectOk := true,
        authReply := .obj ⟨some "pong", none, none, none, none⟩,
        msgs := [taskFrame "t1" "c1" "hello"],
        cleanClose := true } st0).1.spawned = [("t1", "c1", "hello")] ∧
    (connectOnce
      { connectOk := true,
        authReply := .obj ⟨some "pong", none, none, none, none⟩,
        msgs := [taskFrame "t1" "c1" "hello"],
        cleanClose := true } st0).1.errorCbs = [] ∧
    (connectOnce
      { connectOk := true,
        authReply := .obj ⟨some "pong", none, none, none, none⟩,
        msgs := [taskFrame "t1" "c1" "hello"],
        cleanClose := true } st0).1.connectedCbs = 0 := by
  exact ⟨rfl, rfl, rfl, rfl⟩

/-- Claim C4, amended: during `Authenticating`, a malformed reply
(undecodable JSON, or decodable JSON that is not an object) aborts the
attempt with a transient exception; but a well-formed object reply whose
type is neither `auth_ok` nor `auth_error` is accepted silently — the
session proceeds directly into the read phase without invoking the
connected callback (and without any error). -/
theorem auth_reply_dispatch (st : AgentState) (o : InObj) (ms : List Raw)
    (cc : Bool) (hok : o.type? ≠ some "auth_ok")
    (herr : o.type? ≠ some "auth_error") :
    (connectOnce
      { connectOk := true, authReply := .bad, msgs := ms,
        cleanClose := cc } st).2 = some .decodeFailed ∧
    (connectOnce
      { connectOk := true, authReply := .nonObj, msgs := ms,
        cleanClose := cc } st).2 = some .attrFailed ∧
    connectOnce
      { connectOk := true, authReply := .obj o, msgs := ms,
        cleanClose := cc } st = runSession (sendAuth st) ms cc ∧
    (connectOnce
      { connectOk := true, authReply := .obj o, msgs := ms,
        cleanClose := cc } st).1.connectedCbs = st.connectedCbs := by
  have h3 : connectOnce
      { connectOk := true, authReply := .obj o, msgs := ms,
        cleanClose := cc } st = runSession (sendAuth st) ms cc := by
    simp [connectOnce, hok, herr]
  refine ⟨rfl, rfl, h3, ?_⟩
  rw [h3, runSession_connectedCbs]
  rfl

/-- Claim C4 witness: the amended statement evaluated on a fresh agent with
a `pong` auth reply and an empty read phase. -/
theorem auth_reply_dispatch_witness :
    (connectOnce
      { connectOk := true, authReply := .bad, msgs := [],
        cleanClose := true } st0).2 = some .decodeFailed ∧
    (connectOnce
      { connectOk := true, authReply := .nonObj, msgs := [],
        cleanClose := true } st0).2 = some .attrFailed ∧
    connectOnce
      { connectOk := true,
        authReply := .obj ⟨some "pong", none, none, none, none⟩,
        msgs := [], cleanClose := true } st0 =
      runSession (sendAuth st0) [] true ∧
    (connectOnce
      { connectOk := true,
        authReply := .obj ⟨some "pong", none, none, none, none⟩,
        msgs := [], cleanClose := true } st0).1.connectedCbs =
      st0.connectedCbs :=
  auth_reply_dispatch st0 ⟨some "pong", none, none, none, none⟩ [] true
    (by decide) (by decide)

/-- Claim C5, counterexample: a session that reaches `Connected` (auth_ok,
connected callback invoked) and then leaves it because the transport errors
does not invoke the disconnected callback at all — the callback sits after
the `try`/`finally` block and the exception propagates past it. -/
theorem transport_error_no_disconnected_callback :
    (connectOnce
      { connectOk := true,
        authReply := .obj ⟨some "auth_ok", none, none, none, none⟩,
        msgs := [], cleanClose := false } st0).1.connectedCbs = 1 ∧
    (connectOnce
      { connectOk := true,
        authReply := .obj ⟨some "auth_ok", none, none, none, none⟩,
        msgs := [], cleanClose := false } st0).1.disconnectedCbs = 0 ∧
    (connectOnce
      { connectOk := true,
        authReply := .obj ⟨some "auth_ok", none, none, none, none⟩,
        msgs := [], cleanClose := false } st0).2 = some .transportFailed := by
  exact ⟨rfl, rfl, rfl⟩

/-- Claim C5, amended: after a successful `auth_ok` handshake, the
disconnected callback is invoked exactly once when the read phase ends by a
clean transport close; when the session instead ends by a transport error
or by an exception escaping the read loop, the callback is not invoked (the
session's exception is reported via the error callback and the reconnect
loop retries, so the callback invocation — when it happens — precedes any
next attempt). -/
theorem leaving_connected_callback (st : AgentState) (o : InObj)
    (ms : List Raw) (h : o.type? = some "auth_ok") :
    ((readLoop { sendAuth st with
        connectedCbs := (sendAuth st).connectedCbs + 1 } ms).2 = none →
      (connectOnce
        { connectOk := true, authReply := .obj o, msgs := ms,
          cleanClose := true } st).1.disconnectedCbs =
        st.disconnectedCbs + 1 ∧
      (connectOnce
        { connectOk := true, authReply := .obj o, msgs := ms,
          cleanClose := true } st).2 = none ∧
      (connectOnce
        { connectOk := true, authReply := .obj o, msgs := ms,
          cleanClose := false } st).1.disconnectedCbs = st.disconnectedCbs ∧
      (connectOnce
        { connectOk := true, authReply := .obj o, msgs := ms,
          cleanClose := false } st).2 = some .transportFailed) ∧
    (∀ e cc, (readLoop { sendAuth st with
        connectedCbs := (sendAuth st).connectedCbs + 1 } ms).2 = some e →
      (connectOnce
        { connectOk := true, authReply := .obj o, msgs := ms,
          cleanClose := cc } st).1.disconnectedCbs = st.disconnectedCbs ∧
      (connectOnce
        { connectOk := true, authReply := .obj o, msgs := ms,
          cleanClose := cc } st).2 = some e) := by
  have hco : ∀ cc, connectOnce
      { connectOk := true, authReply := .obj o, msgs := ms,
        cleanClose := cc } st =
      runSession { sendAuth st with
        connectedCbs := (sendAuth st).connectedCbs + 1 } ms cc := by
    intro cc
    simp [connectOnce, h]
  rcases hr : readLoop { sendAuth st with
      connectedCbs := (sendAuth st).connectedCbs + 1 } ms with ⟨st', e⟩
  have hfields := readLoop_fst_fields { sendAuth st with
      connectedCbs := (sendAuth st).connectedCbs + 1 } ms
  rw [hr] at hfields
  have hd : st'.disconnectedCbs = st.disconnectedCbs := hfields.2.2.2.1
  constructor
  · intro hnone
    have he : e = none := by simpa using hnone
    subst he
    refine ⟨?_, ?_, ?_, ?_⟩ <;>
      simp [hco, runSession, hr, hd]
  · intro ex cc hsome
    have he : e = some ex := by simpa using hsome
    subst he
    constructor <;> simp [hco, runSession, hr, hd]

/-- Claim C5 witness: the amended statement's clean-close and
transport-error conclusions evaluated on a fresh agent with an `auth_ok`
reply and an empty read phase. -/
theorem leaving_connected_callback_witness :
    (connectOnce
      { connectOk := true,
        authReply := .obj ⟨some "auth_ok", none, none, none, none⟩,
        msgs := [], cleanClose := true } st0).1.disconnectedCbs =
      st0.disconnectedCbs + 1 ∧
    (connectOnce
      { connectOk := true,
        authReply := .obj ⟨some "auth_ok", none, none, none, none⟩,
        msgs := [], cleanClose := true } st0).2 = none ∧
    (connectOnce
      { connectOk := true,
        authReply := .obj ⟨some "auth_ok", none, none, none, none⟩,
        msgs := [], cleanClose := false } st0).1.disconnectedCbs =
      st0.disconnectedCbs ∧
    (connectOnce
      { connectOk := true,
        authReply := .obj ⟨some "auth_ok", none, none, none, none⟩,
        msgs := [], cleanClose := false } st0).2 = some .transportFailed :=
  (leaving_connected_callback st0 ⟨some "auth_ok", none, none, none, none⟩
    [] rfl).1 rfl

/-- Claim C3, counterexample: on an `auth_error` handshake reply the error
is reported TWICE through the registered error callback, not once —
`_connect_once` invokes the callback and then re-raises the same exception,
and `connect`'s `except` arm invokes the callback again with it.  (Further
attempts are indeed prevented: with a second script available and ample
fuel, only one attempt is made.) -/
theorem auth_error_reported_twice_counterexample :
    (connect 5
      [{ connectOk := true,
         authReply := .obj ⟨some "auth_error", none, none, none, some "bad"⟩,
         msgs := [], cleanClose := true },
       { connectOk := true,
         authReply := .obj ⟨some "auth_ok", none, none, none, none⟩,
         msgs := [], cleanClose := true }] st0).1.errorCbs =
      ["Agent auth failed: bad", "Agent auth failed: bad"] ∧
    (connect 5
      [{ connectOk := true,
         authReply := .obj ⟨some "auth_error", none, none, none, some "bad"⟩,
         msgs := [], cleanClose := true },
       { connectOk := true,
         authReply := .obj ⟨some "auth_ok", none, none, none, none⟩,
         msgs := [], cleanClose := true }] st0).2 = 1 := by
  exact ⟨rfl, rfl⟩

/-- Claim C3, amended: an `auth_error` handshake reply is a permanent
failure — the stopped flag is set and the reconnect loop makes no further
connection attempts (exactly one attempt total, regardless of remaining
fuel and scripts) — but the error is delivered to the registered error
callback twice: once inside the connection attempt and once more by the
reconnect loop's exception handler. -/
theorem auth_error_halts_reconnect (st : AgentState) (o : InObj)
    (rest : List Script) (fuel : Nat) (h : o.type? = some "auth_error") :
    (connect (fuel + 1)
      ({ connectOk := true, authReply := .obj o, msgs := [],
         cleanClose := true } :: rest) st).2 = 1 ∧
    (connect (fuel + 1)
      ({ connectOk := true, authReply := .obj o, msgs := [],
         cleanClose := true } :: rest) st).1.errorCbs =
      st.errorCbs ++ [authFailMsg o, authFailMsg o] ∧
    (connect (fuel + 1)
      ({ connectOk := true, authReply := .obj o, msgs := [],
         cleanClose := true } :: rest) st).1.stopped = true := by
  refine ⟨?_, ?_, ?_⟩ <;>
    simp [connect, connectLoop, connectOnce, h, sendAuth, describeExn]

/-- Claim C3 witness: the amended statement evaluated on a fresh agent with
an `auth_error` reply carrying the message `bad`, one unit of fuel and no
further scripts. -/
theorem auth_error_halts_reconnect_witness :
    (connect 1
      [{ connectOk := true,
         authReply := .obj ⟨some "auth_error", none, none, none, some "bad"⟩,
         msgs := [], cleanClose := true }] st0).2 = 1 ∧
    (connect 1
      [{ connectOk := true,
         authReply := .obj ⟨some "auth_error", none, none, none, some "bad"⟩,
         msgs := [], cleanClose := true }] st0).1.errorCbs =
      st0.errorCbs ++
        [authFailMsg ⟨some "auth_error", none, none, none, some "bad"⟩,
         authFailMsg ⟨some "auth_error", none, none, none, some "bad"⟩] ∧
    (connect 1
      [{ connectOk := true,
         authReply := .obj ⟨some "auth_error", none, none, none, some "bad"⟩,
         msgs := [], cleanClose := true }] st0).1.stopped = true :=
  auth_error_halts_reconnect st0
    ⟨some "auth_error", none, none, none, some "bad"⟩ [] 0 rfl

/-- Claim C9: `connect` first resets the stopped flag, so its behaviour is
independent of the flag's prior value (a stop issued before `connect`
begins, or a permanent auth failure left over from an earlier run, does not
prevent new attempts), and with at least one script and one unit of fuel at
least one connection attempt is always made. -/
theorem connect_resets_stopped (fuel : Nat) (sc : Script)
    (rest : List Script) (st : AgentState) (b : Bool) :
    connect fuel (sc :: rest) { st with stopped := b } =
      connect fuel (sc :: rest) st ∧
    1 ≤ (connect (fuel + 1) (sc :: rest) st).2 := by
  constructor
  · rfl
  · rcases hco : connectOnce sc { st with stopped := false } with ⟨st1, e⟩
    rcases e with _ | ex
    · simp [connect, connectLoop, hco]
    · simp only [connect, connectLoop, hco]
      by_cases hstop : st1.stopped = true
      · simp [hstop]
      · simp [hstop]
